import Mathlib

/-!
Shallow embedding of the revenue-prediction engine of the `garment-revenue`
repository (`src/lib/enhanced-prediction-engine.ts`) and of the flow wrapper
(`src/ai/flows/revenue-prediction.ts`).  JavaScript numbers are modelled as
exact rationals (`ℚ`); `Math.round` is modelled as round-half-toward-+∞
(which both JavaScript `Math.round` and `Number.prototype.toFixed` use);
optional inputs are `Option ℚ`, and a JavaScript truthiness test on a number
(`!x`, `x ? _ : _`, `x || d`) is translated as a test for `none` or `0`.
Date-dependent reads of `new Date()` are made explicit by passing an
`EvalDate`; the Firestore fetch of `getExternalData` is made explicit by
passing a `FetchOutcome`.
-/

/-- JavaScript `Math.round` / the rounding used by `toFixed`: round to the
nearest integer, ties toward +∞, i.e. `⌊x + 1/2⌋`. -/
def jsRound (q : ℚ) : ℤ := round q

/-- JavaScript `parseFloat(x.toFixed(n))`: round `x` to `n` decimal digits
(ties toward +∞, as `toFixed` does). -/
def toFixedQ (n : ℕ) (q : ℚ) : ℚ := (jsRound (q * 10 ^ n) : ℚ) / 10 ^ n

/-- Decimal rendering of `x.toFixed(n)` followed by string concatenation, as
used in the insight strings (`growth.toFixed(1) + '%'` …). -/
def toFixedStr (n : ℕ) (q : ℚ) : String :=
  let scaled : ℤ := jsRound (q * 10 ^ n)
  let sign := if scaled < 0 then "-" else ""
  let a := scaled.natAbs
  if n = 0 then sign ++ toString (a : ℕ)
  else
    let ip := a / 10 ^ n
    let fp := a % 10 ^ n
    let s := toString fp
    sign ++ toString ip ++ "." ++ String.mk (List.replicate (n - s.length) '0') ++ s

/-- Approximation of JavaScript `Math.sqrt` on rationals (used only inside
`calculateVolatility`; no verified claim depends on its value, every theorem
either leaves volatility universally quantified or never forces it). -/
def jsSqrt (q : ℚ) : ℚ := ((⌊q * 10 ^ 12⌋).toNat.sqrt : ℚ) / 10 ^ 6

/-- Default string rendering of a JavaScript number, used only where the code
concatenates a number with a string (`features.buyerConcentrationRisk +
'/100'`); the engine only ever renders integers that way. -/
def jsNumToString (q : ℚ) : String :=
  if q.den = 1 then toString q.num else toFixedStr 4 q

/-- An optional JavaScript number is truthy iff it is present and nonzero. -/
def truthy : Option ℚ → Bool
  | none => false
  | some v => v != 0

/-- `x || d` on an optional JavaScript number. -/
def orDefault (x : Option ℚ) (d : ℚ) : ℚ :=
  match x with
  | some v => if v = 0 then d else v
  | none => d

/-- The calendar date at which the engine is evaluated (`new Date()`);
`month` is 1–12 as in the engine's `getMonth() + 1`. -/
structure EvalDate where
  year : ℤ
  month : ℕ
  day : ℕ
deriving DecidableEq, Repr

/-- `HistoricalRevenueDataItem` of the engine: `{name: string, revenue: number}`. -/
structure HistoricalRevenueDataItem where
  name : String
  revenue : ℚ
deriving DecidableEq, Repr

/-- `EnhancedInputData` of the engine (the `externalData` member is passed
separately to the functions that need it). -/
structure EnhancedInputData where
  historicalRevenue : List HistoricalRevenueDataItem
  productionCapacity : ℚ
  marketingSpend : ℚ
  laborCostIndex : ℚ
  companyLifecycleStage : String
  naturalDisasterLikelihood : String
  confirmedOrdersValue : Option ℚ := none
  orderBacklog : Option ℚ := none
  top3BuyersPercentage : Option ℚ := none
  buyerRetentionRate : Option ℚ := none
  firstPassQualityRate : Option ℚ := none
  onTimeDeliveryRate : Option ℚ := none
  currentExchangeRate : Option ℚ := none
deriving DecidableEq, Repr

/-- `rawMaterialPrices` member of the external-data document. -/
structure RawMaterialPrices where
  cottonPriceLKR : ℚ
  polyesterPriceLKR : ℚ
  dyeCostIndex : ℚ
deriving DecidableEq, Repr

/-- `economicIndicators` member of the external-data document. -/
structure EconomicIndicators where
  gdpGrowthRate : ℚ
  inflationRate : ℚ
  exportGrowthRate : ℚ
  unemploymentRate : ℚ
deriving DecidableEq, Repr

/-- The external-data document (`externalData/current` in Firestore); the two
nested members are optional because a found document is untyped (`any`). -/
structure ExternalData where
  exchangeRate : ℚ
  rawMaterialPrices : Option RawMaterialPrices
  economicIndicators : Option EconomicIndicators
deriving DecidableEq, Repr

/-- Outcome of the Firestore read in `getExternalData`: the document exists
with data `d`, the document is missing, or `getDoc` threw. -/
inductive FetchOutcome where
  | found (d : ExternalData)
  | missing
  | fetchError
deriving DecidableEq, Repr

/-- `getFallbackExternalData`. -/
def getFallbackExternalData : ExternalData :=
  { exchangeRate := 325.50
    rawMaterialPrices := some { cottonPriceLKR := 410, polyesterPriceLKR := 360, dyeCostIndex := 1.05 }
    economicIndicators := some { gdpGrowthRate := 1.8, inflationRate := 5.5, exportGrowthRate := 4.2, unemploymentRate := 4.9 } }

/-- `getExternalData`: return the document's data when it exists, and the
fallback constants when it is missing or the fetch threw (the `try`/`catch`
absorbs the error, so the function never throws). -/
def getExternalData : FetchOutcome → ExternalData
  | .found d => d
  | .missing => getFallbackExternalData
  | .fetchError => getFallbackExternalData

/-- The feature record built by `calculateEnhancedFeatures`. -/
structure Features where
  baseRevenue : ℚ
  revenueGrowth : ℚ
  revenueVolatility : ℚ
  seasonality : ℚ
  orderPipelineStrength : ℚ
  buyerConcentrationRisk : ℚ
  operationalEfficiency : ℚ
  marketPosition : ℚ
  exchangeRateImpact : ℚ
  rawMaterialCostImpact : ℚ
  economicConditions : ℚ
  overallRiskScore : ℚ
  dataQualityScore : ℚ
  companyLifecycleStage : String
  naturalDisasterLikelihood : String
  marketingSpend : ℚ
  laborCostIndex : ℚ
  productionCapacity : ℚ
deriving DecidableEq, Repr

/-- `calculateGrowthRate(revenueData, periods)`. -/
def calculateGrowthRate (revenueData : List HistoricalRevenueDataItem) (periods : ℕ) : ℚ :=
  if revenueData.length < periods + 1 then 0
  else
    let current := orDefault ((revenueData.get? (revenueData.length - 1)).map (·.revenue)) 0
    match (revenueData.get? (revenueData.length - periods - 1)).map (·.revenue) with
    | none => 0
    | some prev => if prev = 0 then 0 else toFixedQ 2 (((current - prev) / prev) * 100)

/-- `calculateVolatility(revenueData)`: coefficient of variation in percent. -/
def calculateVolatility (revenueData : List HistoricalRevenueDataItem) : ℚ :=
  if revenueData.length < 3 then 0
  else
    let values := revenueData.map (·.revenue)
    let mean := values.sum / (values.length : ℚ)
    if mean = 0 then 0
    else
      let variance := (values.map (fun v => (v - mean) ^ 2)).sum / (values.length : ℚ)
      toFixedQ 2 ((jsSqrt variance / mean) * 100)

/-- `getSeasonalFactor()` as a function of the current month (1–12). -/
def getSeasonalFactor (month : ℕ) : ℚ :=
  match month with
  | 1 => 0.9 | 2 => 0.95 | 3 => 1.1 | 4 => 1.15 | 5 => 1.1 | 6 => 0.95
  | 7 => 0.9 | 8 => 0.9 | 9 => 1.0 | 10 => 1.2 | 11 => 1.3 | 12 => 1.1
  | _ => 1.0

/-- `calculateSeasonality(revenueData)` as a function of the current month. -/
def calculateSeasonality (month : ℕ) (revenueData : List HistoricalRevenueDataItem) : ℚ :=
  if revenueData.length < 12 then 1.0 else getSeasonalFactor month

/-- `calculateOrderPipelineStrength(inputData)`. -/
def calculateOrderPipelineStrength (inputData : EnhancedInputData) : ℚ :=
  match inputData.confirmedOrdersValue with
  | none => 50
  | some v =>
    if v ≤ 0 then 50
    else if inputData.historicalRevenue.length = 0 then 50
    else
      let avgRevenue := (inputData.historicalRevenue.map (·.revenue)).sum / (inputData.historicalRevenue.length : ℚ)
      if avgRevenue ≤ 0 then 50
      else max 0 (min ((v / avgRevenue) * 100) 200)

/-- `calculateBuyerRisk(inputData)`: note the JavaScript truthiness guard
`!inputData.top3BuyersPercentage`, which routes a present value of `0` to the
default 50 as well. -/
def calculateBuyerRisk (inputData : EnhancedInputData) : ℚ :=
  match inputData.top3BuyersPercentage with
  | none => 50
  | some percentage =>
    if percentage = 0 then 50
    else if percentage > 80 then 90
    else if percentage > 60 then 70
    else if percentage > 40 then 50
    else 30

/-- The `averageHistoricalRevenue` local of `calculateOperationalEfficiency`
(1 when the history is empty). -/
def averageHistoricalRevenue (inputData : EnhancedInputData) : ℚ :=
  let historicalRevenues := inputData.historicalRevenue.map (·.revenue)
  if historicalRevenues.length = 0 then 1
  else historicalRevenues.sum / (historicalRevenues.length : ℚ)

/-- The `maxPossibleRevenueAtCapacity` local of `calculateOperationalEfficiency`:
`capacity * (avg / (capacity || 1) * 0.5)`. -/
def maxPossibleRevenueAtCapacity (inputData : EnhancedInputData) : ℚ :=
  let cap := inputData.productionCapacity
  cap * (averageHistoricalRevenue inputData / (if cap = 0 then 1 else cap) * 0.5)

/-- The `utilizationRate` local of `calculateOperationalEfficiency`. -/
def utilizationRate (inputData : EnhancedInputData) : ℚ :=
  if inputData.productionCapacity > 0 ∧ averageHistoricalRevenue inputData > 0 then
    min ((averageHistoricalRevenue inputData / maxPossibleRevenueAtCapacity inputData) * 100) 100
  else 70

/-- `calculateOperationalEfficiency(inputData)`. -/
def calculateOperationalEfficiency (inputData : EnhancedInputData) : ℚ :=
  let e0 : ℚ := 70
  let e1 := match inputData.firstPassQualityRate with
    | some q => if q = 0 then e0 else e0 + (q - 85) * 0.5
    | none => e0
  let e2 := match inputData.onTimeDeliveryRate with
    | some d => if d = 0 then e1 else e1 + (d - 90) * 0.3
    | none => e1
  let e3 := e2 + (utilizationRate inputData - 70) * 0.2
  max 0 (min 100 (toFixedQ 2 e3))

/-- `calculateExchangeRateImpact(currentRate, revenue)` (the `revenue`
argument is unused in the source as well). -/
def calculateExchangeRateImpact (currentRate : ℚ) : ℚ :=
  let effectiveRate := if currentRate = 0 then 320 else currentRate
  let baselineRate : ℚ := 320
  toFixedQ 4 |((effectiveRate - baselineRate) / baselineRate)|

/-- `calculateMarketPosition(inputData)`. -/
def calculateMarketPosition (inputData : EnhancedInputData) : ℚ :=
  let retentionRate := orDefault inputData.buyerRetentionRate 70
  let qualityRate := orDefault inputData.firstPassQualityRate 85
  let deliveryRate := orDefault inputData.onTimeDeliveryRate 90
  toFixedQ 2 ((retentionRate * 0.4) + (qualityRate * 0.3) + (deliveryRate * 0.3))

/-- `calculateRawMaterialImpact(rawMaterialPrices)`. -/
def calculateRawMaterialImpact (rawMaterialPrices : Option RawMaterialPrices) : ℚ :=
  let baselineCottonLKR : ℚ := 350
  let currentCottonLKR :=
    match rawMaterialPrices with
    | none => baselineCottonLKR
    | some p => if p.cottonPriceLKR = 0 then baselineCottonLKR else p.cottonPriceLKR
  toFixedQ 2 (currentCottonLKR / baselineCottonLKR)

/-- `assessEconomicConditions(economicIndicators)`. -/
def assessEconomicConditions (economicIndicators : Option EconomicIndicators) : ℚ :=
  match economicIndicators with
  | none => 60
  | some e =>
    let score : ℚ := 50 + e.gdpGrowthRate * 5 - e.inflationRate * 2 + e.exportGrowthRate * 3
    toFixedQ 2 (max 0 (min 100 score))

/-- `assessDataQuality(inputData)`. -/
def assessDataQuality (inputData : EnhancedInputData) : ℚ :=
  let score : ℚ := 50
  let score := if inputData.historicalRevenue.length ≥ 12 then score + 10 else score
  let score := if inputData.historicalRevenue.length ≥ 24 then score + 5 else score
  let posBonus : Option ℚ → ℚ → ℚ := fun x b =>
    match x with
    | some v => if v ≠ 0 ∧ v > 0 then b else 0
    | none => 0
  let score := score + posBonus inputData.confirmedOrdersValue 10
  let score := score + posBonus inputData.firstPassQualityRate 5
  let score := score + posBonus inputData.onTimeDeliveryRate 5
  let score := score + posBonus inputData.buyerRetentionRate 5
  let score := score + posBonus inputData.currentExchangeRate 5
  min 100 score

/-- `calculateOverallRisk(inputData, externalData)`. -/
def calculateOverallRisk (inputData : EnhancedInputData) (externalData : ExternalData) : ℚ :=
  let buyerRisk :=
    match inputData.top3BuyersPercentage with
    | some p => if p = 0 then 0.5 else p / 100
    | none => 0.5
  let qualityRisk :=
    match inputData.firstPassQualityRate with
    | some q => if q = 0 then 0.15 else (100 - q) / 100
    | none => 0.15
  let exchangeRisk :=
    if externalData.exchangeRate = 0 then 0.05
    else |externalData.exchangeRate - 320| / 320
  let riskScore := (buyerRisk * 40) + (qualityRisk * 30) + (exchangeRisk * 30)
  toFixedQ 2 (min 100 (max 0 riskScore))

/-- `calculateEnhancedFeatures(inputData, externalData)` as a function of the
current month. -/
def calculateEnhancedFeatures (month : ℕ) (inputData : EnhancedInputData)
    (externalData : ExternalData) : Features :=
  let revenue := inputData.historicalRevenue
  let latestRevenue :=
    match revenue.get? (revenue.length - 1) with
    | some r => r.revenue
    | none => 0
  { baseRevenue := latestRevenue
    revenueGrowth := calculateGrowthRate revenue 6
    revenueVolatility := calculateVolatility revenue
    seasonality := calculateSeasonality month revenue
    orderPipelineStrength := calculateOrderPipelineStrength inputData
    buyerConcentrationRisk := calculateBuyerRisk inputData
    operationalEfficiency := calculateOperationalEfficiency inputData
    marketPosition := calculateMarketPosition inputData
    exchangeRateImpact :=
      calculateExchangeRateImpact (orDefault inputData.currentExchangeRate externalData.exchangeRate)
    rawMaterialCostImpact := calculateRawMaterialImpact externalData.rawMaterialPrices
    economicConditions := assessEconomicConditions externalData.economicIndicators
    overallRiskScore := calculateOverallRisk inputData externalData
    dataQualityScore := assessDataQuality inputData
    companyLifecycleStage := inputData.companyLifecycleStage
    naturalDisasterLikelihood := inputData.naturalDisasterLikelihood
    marketingSpend := inputData.marketingSpend
    laborCostIndex := inputData.laborCostIndex
    productionCapacity := inputData.productionCapacity }

/-- `trendBasedPrediction(features)`. -/
def trendBasedPrediction (features : Features) : ℚ :=
  features.baseRevenue * (1 + features.revenueGrowth / 100)

/-- `pipelineBasedPrediction(features)`. -/
def pipelineBasedPrediction (features : Features) : ℚ :=
  features.baseRevenue * (features.orderPipelineStrength / 100)

/-- `seasonalAdjustedPrediction(features)` as a function of the current month. -/
def seasonalAdjustedPrediction (month : ℕ) (features : Features) : ℚ :=
  features.baseRevenue * getSeasonalFactor month

/-- The weighted ensemble value `trend*0.40 + pipeline*0.35 + seasonal*0.25`
computed inside `runEnsemblePrediction`. -/
def ensembleValue (month : ℕ) (features : Features) : ℚ :=
  trendBasedPrediction features * 0.40 +
  pipelineBasedPrediction features * 0.35 +
  seasonalAdjustedPrediction month features * 0.25

/-- `calculatePredictionConfidence(features)`: note the truthiness guard
`features.overallRiskScore || 0`, an identity on numbers. -/
def calculatePredictionConfidence (features : Features) : ℚ :=
  let confidence : ℚ := 85
  let confidence := confidence + (features.dataQualityScore - 70) * 0.3
  let confidence := confidence - min (features.revenueVolatility / 2) 15
  let confidence := confidence -
    (if features.overallRiskScore = 0 then 0 else features.overallRiskScore) * 0.1
  max 60 (min 95 ((jsRound confidence : ℚ)))

/-- The raw (pre-adjustment) four-horizon record returned by
`runEnsemblePrediction`. -/
structure RawPredictions where
  nextMonth : ℚ
  nextQuarter : ℚ
  nextSixMonths : ℚ
  nextYear : ℚ
  confidence : ℚ
deriving DecidableEq, Repr

/-- `runEnsemblePrediction(features)` as a function of the current month. -/
def runEnsemblePrediction (month : ℕ) (features : Features) : RawPredictions :=
  let ensemblePrediction := ensembleValue month features
  { nextMonth := ensemblePrediction * 0.33
    nextQuarter := ensemblePrediction
    nextSixMonths := ensemblePrediction * 2
    nextYear := ensemblePrediction * 4
    confidence := calculatePredictionConfidence features }

/-- `isRamadanPeriod()` as a function of the evaluation date (the hard-coded
2024/2025 windows; date comparison is at day granularity, matching the
midnight `Date` constructors of the source). -/
def isRamadanPeriod (d : EvalDate) : Bool :=
  let onOrAfter : ℕ → ℕ → Bool := fun m dd =>
    (m < d.month) || (m = d.month && dd ≤ d.day)
  let onOrBefore : ℕ → ℕ → Bool := fun m dd =>
    (d.month < m) || (m = d.month && d.day ≤ dd)
  if d.year = 2024 then onOrAfter 3 10 && onOrBefore 4 9
  else if d.year = 2025 then onOrAfter 2 28 && onOrBefore 3 29
  else false

/-- The `adjustmentFactor` accumulator of `applyIndustryAdjustments`, before
the final `toFixed(4)` recording: the product of the ten multiplier steps. -/
def adjustmentFactorRaw (d : EvalDate) (features : Features) : ℚ :=
  (1.0 : ℚ) *
  (if 6 ≤ d.month ∧ d.month ≤ 9 then 0.95 else 1) *
  (if isRamadanPeriod d then 0.92 else 1) *
  (if features.companyLifecycleStage = "startup" then 1.1 else 1) *
  (if features.companyLifecycleStage = "decline" then 0.9 else 1) *
  (if features.naturalDisasterLikelihood = "high" then 0.85
   else if features.naturalDisasterLikelihood = "medium" then 0.95 else 1) *
  (if features.exchangeRateImpact > 0.1 then 0.97 else 1) *
  (if features.operationalEfficiency > 90 then 1.05
   else if features.operationalEfficiency < 75 then 0.95 else 1) *
  1.03 *
  (if features.marketingSpend > 1000000 then 1.02 else 1) *
  (if features.laborCostIndex > 1.1 then 0.98 else 1)

/-- The adjusted prediction record returned by `applyIndustryAdjustments`. -/
structure AdjustedPredictions where
  nextMonth : ℚ
  nextQuarter : ℚ
  nextSixMonths : ℚ
  nextYear : ℚ
  confidence : ℚ
  adjustmentFactor : ℚ
deriving DecidableEq, Repr

/-- `applyIndustryAdjustments(predictions, features)` as a function of the
evaluation date. -/
def applyIndustryAdjustments (d : EvalDate) (predictions : RawPredictions)
    (features : Features) : AdjustedPredictions :=
  let adjustmentFactor := adjustmentFactorRaw d features
  { nextMonth := max 0 ((jsRound (predictions.nextMonth * adjustmentFactor) : ℚ))
    nextQuarter := max 0 ((jsRound (predictions.nextQuarter * adjustmentFactor) : ℚ))
    nextSixMonths := max 0 ((jsRound (predictions.nextSixMonths * adjustmentFactor) : ℚ))
    nextYear := max 0 ((jsRound (predictions.nextYear * adjustmentFactor) : ℚ))
    confidence := predictions.confidence
    adjustmentFactor := toFixedQ 4 adjustmentFactor }

/-- A key driver of the `insights` member. -/
structure KeyDriver where
  factor : String
  impact : String
  strength : String
deriving DecidableEq, Repr

/-- A risk factor of the `insights` member. -/
structure RiskFactor where
  risk : String
  level : String
  score : String
deriving DecidableEq, Repr

/-- The `insights` member of the output. -/
structure Insights where
  keyDrivers : List KeyDriver
  riskFactors : List RiskFactor
deriving DecidableEq, Repr

/-- `EnhancedPredictionOutput`. -/
structure EnhancedPredictionOutput where
  predictions : AdjustedPredictions
  insights : Insights
  accuracy : String
  recommendations : List String
deriving DecidableEq, Repr

/-- `generateInsights(predictions, features, inputData)`. -/
def generateInsights (features : Features) : Insights :=
  { keyDrivers := [
      { factor := "Order Pipeline Strength"
        impact := if features.orderPipelineStrength > 100 then "Positive"
                  else if features.orderPipelineStrength < 60 then "Negative" else "Neutral"
        strength := toFixedStr 1 features.orderPipelineStrength ++ "%" },
      { factor := "Operational Efficiency"
        impact := if features.operationalEfficiency > 80 then "Positive"
                  else if features.operationalEfficiency < 70 then "Needs Improvement" else "Average"
        strength := toFixedStr 1 features.operationalEfficiency ++ "%" },
      { factor := "Recent Revenue Growth"
        impact := if features.revenueGrowth > 5 then "Positive"
                  else if features.revenueGrowth < 0 then "Negative" else "Stable"
        strength := toFixedStr 1 features.revenueGrowth ++ "%" },
      { factor := "Market Conditions"
        impact := if features.economicConditions > 60 then "Favorable" else "Challenging"
        strength := toFixedStr 1 features.economicConditions ++ "/100" }]
    riskFactors := [
      { risk := "Buyer Concentration"
        level := if features.buyerConcentrationRisk > 70 then "High"
                 else if features.buyerConcentrationRisk < 40 then "Low" else "Medium"
        score := jsNumToString features.buyerConcentrationRisk ++ "/100" },
      { risk := "Exchange Rate Volatility Impact"
        level := if features.exchangeRateImpact > 0.05 then "High" else "Low"
        score := toFixedStr 1 (features.exchangeRateImpact * 100) ++ "%" },
      { risk := "Revenue Volatility"
        level := if features.revenueVolatility > 15 then "High"
                 else if features.revenueVolatility < 5 then "Low" else "Medium"
        score := toFixedStr 1 features.revenueVolatility ++ "%" }] }

/-- The default maintenance recommendation returned when no gate fires. -/
def maintenanceRecommendation : String :=
  "Maintain current strategies; review key metrics regularly."

/-- `generateRecommendations(features, inputData)`. -/
def generateRecommendations (features : Features) (inputData : EnhancedInputData) : List String :=
  let recommendations : List String :=
    (if features.buyerConcentrationRisk > 60 then
      ["Diversify buyer base to mitigate revenue dependency on a few key clients."] else []) ++
    (if features.operationalEfficiency < 75 then
      ["Invest in operational improvements: enhance first-pass quality and on-time delivery rates."] else []) ++
    (if features.orderPipelineStrength < 80 then
      ["Strengthen sales and marketing efforts to build a more robust order pipeline."] else []) ++
    (if features.exchangeRateImpact > 0.05 then
      ["Evaluate currency hedging strategies to manage risks from LKR exchange rate fluctuations."] else []) ++
    (if features.dataQualityScore < 70 then
      ["Improve data collection for more accurate forecasting; ensure all key metrics are regularly updated."] else []) ++
    (if features.companyLifecycleStage = "startup" ∧ features.revenueGrowth < 10 then
      ["Focus on aggressive market penetration and customer acquisition strategies."] else []) ++
    (if features.naturalDisasterLikelihood = "high" then
      ["Develop and test business continuity plans for potential natural disasters."] else [])
  if recommendations.length > 0 then recommendations else [maintenanceRecommendation]

/-- `basicPredictionFallback(inputData)`. -/
def basicPredictionFallback (inputData : EnhancedInputData) : EnhancedPredictionOutput :=
  let revenue := inputData.historicalRevenue
  let latestRevenue :=
    match revenue.get? (revenue.length - 1) with
    | some r => if r.revenue = 0 then 0 else r.revenue
    | none => 0
  let growth := calculateGrowthRate revenue 6
  let basicPrediction := latestRevenue * (1 + growth / 100)
  { predictions :=
      { nextMonth := max 0 ((jsRound (basicPrediction * 0.33) : ℚ))
        nextQuarter := max 0 ((jsRound basicPrediction : ℚ))
        nextSixMonths := max 0 ((jsRound (basicPrediction * 2) : ℚ))
        nextYear := max 0 ((jsRound (basicPrediction * 4) : ℚ))
        confidence := 70
        adjustmentFactor := 1.0 }
    insights :=
      { keyDrivers := [
          { factor := "Historical Trend (Fallback)"
            impact := if growth > 0 then "Positive" else "Negative"
            strength := toFixedStr 1 growth ++ "%" }]
        riskFactors := [
          { risk := "Data Limitation / Prediction Fallback", level := "High", score := "N/A" }] }
    accuracy := "65-75%"
    recommendations :=
      ["Enhanced prediction engine encountered an issue. Providing basic trend-based forecast. Review inputs or system logs."] }

/-- The call `this.calculateAccuracyScore(features)` in the final result
assembly of `generateEnhancedPrediction`: the method `calculateAccuracyScore`
is not defined anywhere in the class, so in JavaScript the call evaluates
`undefined(features)` and throws a `TypeError`; it is therefore embedded as
an always-failing computation. -/
def calculateAccuracyScore (_features : Features) : Except String String :=
  .error "TypeError: this.calculateAccuracyScore is not a function"

/-- The `try` block of `generateEnhancedPrediction` (steps 1–5 and the result
assembly, whose object literal evaluates `predictions`, `insights`,
`accuracy` — which throws — and `recommendations` in that order). -/
def generateEnhancedPredictionTry (fetch : FetchOutcome) (d : EvalDate)
    (inputData : EnhancedInputData) : Except String EnhancedPredictionOutput :=
  let externalData := getExternalData fetch
  let features := calculateEnhancedFeatures d.month inputData externalData
  let predictions := runEnsemblePrediction d.month features
  let adjustedPredictions := applyIndustryAdjustments d predictions features
  let insights := generateInsights features
  match calculateAccuracyScore features with
  | .error e => .error e
  | .ok accuracy =>
    .ok { predictions := adjustedPredictions
          insights := insights
          accuracy := accuracy
          recommendations := generateRecommendations features inputData }

/-- `generateEnhancedPrediction(inputData)`: run the `try` block; on any
exception fall back to `basicPredictionFallback`. -/
def generateEnhancedPrediction (fetch : FetchOutcome) (d : EvalDate)
    (inputData : EnhancedInputData) : EnhancedPredictionOutput :=
  match generateEnhancedPredictionTry fetch d inputData with
  | .ok r => r
  | .error _ => basicPredictionFallback inputData

/-- The flow input of `predictRevenueFlow` (`RevenuePredictionInputSchema`),
with the raw `historicalRevenueData` string abstracted by the outcome of
`JSON.parse` + per-item schema validation (lines 207–219 of the flow). -/
structure FlowInput where
  productionCapacity : ℚ
  marketingSpend : ℚ
  laborCostIndex : ℚ
  companyLifecycleStage : String
  naturalDisasterLikelihood : String
  confirmedOrdersValue : Option ℚ := none
  orderBacklog : Option ℚ := none
  top3BuyersPercentage : Option ℚ := none
  buyerRetentionRate : Option ℚ := none
  firstPassQualityRate : Option ℚ := none
  onTimeDeliveryRate : Option ℚ := none
  currentExchangeRate : Option ℚ := none
deriving DecidableEq, Repr

/-- The mapping of the flow input to `EnhancedInputData` (lines 222–239). -/
def toEngineInput (fi : FlowInput) (parsedHistoricalRevenue : List HistoricalRevenueDataItem) :
    EnhancedInputData :=
  { historicalRevenue := parsedHistoricalRevenue
    productionCapacity := fi.productionCapacity
    marketingSpend := fi.marketingSpend
    laborCostIndex := fi.laborCostIndex
    companyLifecycleStage := fi.companyLifecycleStage
    naturalDisasterLikelihood := fi.naturalDisasterLikelihood
    confirmedOrdersValue := fi.confirmedOrdersValue
    orderBacklog := fi.orderBacklog
    top3BuyersPercentage := fi.top3BuyersPercentage
    buyerRetentionRate := fi.buyerRetentionRate
    firstPassQualityRate := fi.firstPassQualityRate
    onTimeDeliveryRate := fi.onTimeDeliveryRate
    currentExchangeRate := fi.currentExchangeRate }

/-- The output-shape validation `RevenuePredictionOutputSchema.safeParse`: the
only runtime-checkable numeric constraint on a typed result is
`confidence ∈ [0,100]`. -/
def validOutputShape (r : EnhancedPredictionOutput) : Prop :=
  0 ≤ r.predictions.confidence ∧ r.predictions.confidence ≤ 100

instance (r : EnhancedPredictionOutput) : Decidable (validOutputShape r) :=
  inferInstanceAs (Decidable (_ ∧ _))

/-- `APIErrorHandler.handleApiError` restricted to the messages this flow can
feed it: the parse-failure message matches none of the special-case patterns
(network, timeout, rate limit, auth, 404, 503, …) and does not start with
"prediction failed:", so the generic branch applies. -/
def handleApiError (msg : String) : String := "An error occurred: " ++ msg

/-- `predictRevenueFlow(flowInput)`: the historical-data string's parse
outcome (`JSON.parse` + array/item validation) is an explicit argument;
a parse failure is rethrown by the outer `catch` as a descriptive
`Prediction failed:` error, otherwise the engine runs and its result is
shape-validated before being returned. -/
def predictRevenueFlow (fetch : FetchOutcome) (d : EvalDate)
    (parseResult : Except String (List HistoricalRevenueDataItem)) (fi : FlowInput) :
    Except String EnhancedPredictionOutput :=
  match parseResult with
  | .error e =>
    .error ("Prediction failed: " ++ handleApiError ("Invalid historical revenue data JSON: " ++ e))
  | .ok items =>
    let engineInput := toEngineInput fi items
    let result := generateEnhancedPrediction fetch d engineInput
    if validOutputShape result then .ok result
    else .error "Prediction failed: Prediction engine returned data in an unexpected format."

/-- The concrete seven-point acceptance input of the spec: six quarters at
1,000,000 LKR followed by one at 1,100,000 LKR, `productionCapacity` 10000,
`marketingSpend` 0, `laborCostIndex` 1.0, maturity stage, low disaster
likelihood, no optional fields. -/
def acceptanceInput : EnhancedInputData :=
  { historicalRevenue :=
      [⟨"Q1", 1000000⟩, ⟨"Q2", 1000000⟩, ⟨"Q3", 1000000⟩, ⟨"Q4", 1000000⟩,
       ⟨"Q5", 1000000⟩, ⟨"Q6", 1000000⟩, ⟨"Q7", 1100000⟩]
    productionCapacity := 10000
    marketingSpend := 0
    laborCostIndex := 1.0
    companyLifecycleStage := "maturity"
    naturalDisasterLikelihood := "low" }

/-- A concrete evaluation date outside the monsoon window and outside both
hard-coded Ramadan windows (the year 2023 matches neither hard-coded year). -/
def neutralDate : EvalDate := ⟨2023, 1, 15⟩

/-- The features derived from the acceptance input under the fallback
external data at the neutral date. -/
def acceptanceFeatures : Features :=
  calculateEnhancedFeatures neutralDate.month acceptanceInput (getExternalData .missing)

/-- The adjusted predictions for the acceptance input at the neutral date. -/
def acceptanceAdjusted : AdjustedPredictions :=
  applyIndustryAdjustments neutralDate
    (runEnsemblePrediction neutralDate.month acceptanceFeatures) acceptanceFeatures

/-- Modelled from the spec ("Raw confidence (0–100, clamped to [60,95]):
`85 + (dataQualityScore-70)*0.3 - min(volatility/2, 15) - overallRiskScore*0.1`"):
the spec's confidence formula, to be compared with the source's
`calculatePredictionConfidence`. -/
def specConfidenceFormula (dataQualityScore volatility overallRiskScore : ℚ) : ℚ :=
  max 60 (min 95
    ((jsRound (85 + (dataQualityScore - 70) * 0.3 - min (volatility / 2) 15
      - overallRiskScore * 0.1) : ℚ)))

/-- A minimal input whose only interesting field is `top3BuyersPercentage`,
used to exercise `calculateBuyerRisk`. -/
def top3Input (p : Option ℚ) : EnhancedInputData :=
  { historicalRevenue := [⟨"Q1", 1000000⟩]
    productionCapacity := 1000
    marketingSpend := 0
    laborCostIndex := 1.0
    companyLifecycleStage := "maturity"
    naturalDisasterLikelihood := "low"
    top3BuyersPercentage := p }

/-- A sample raw-prediction record used to instantiate universally
quantified theorems at a concrete point. -/
def sampleRawPredictions : RawPredictions :=
  { nextMonth := 330, nextQuarter := 1000, nextSixMonths := 2000, nextYear := 4000,
    confidence := 80 }

/-!  Helper lemmas. -/

/-- Helper: the `try` block of `generateEnhancedPrediction` always fails (the
call to the undefined method `calculateAccuracyScore` throws), so the engine
always returns the basic fallback. -/
lemma generateEnhancedPrediction_eq_fallback (fetch : FetchOutcome) (d : EvalDate)
    (inputData : EnhancedInputData) :
    generateEnhancedPrediction fetch d inputData = basicPredictionFallback inputData := rfl

/-- Helper: the fallback's confidence is the constant 70. -/
lemma basicPredictionFallback_confidence (inputData : EnhancedInputData) :
    (basicPredictionFallback inputData).predictions.confidence = 70 := rfl

/-- Helper: `max 0` of an integer cast is the cast of `Int.toNat`. -/
lemma max_zero_intCast_eq_toNat (z : ℤ) : max 0 ((z : ℚ)) = ((z.toNat : ℕ) : ℚ) := by
  rcases le_or_lt 0 z with h | h
  · rw [max_eq_right (by exact_mod_cast h)]
    exact_mod_cast (Int.toNat_of_nonneg h).symm
  · rw [max_eq_left (by exact_mod_cast h.le), Int.toNat_of_nonpos h.le]
    simp

/-- Helper: `jsRound` is monotone. -/
lemma jsRound_le_jsRound {x y : ℚ} (h : x ≤ y) : jsRound x ≤ jsRound y := by
  unfold jsRound
  rw [round_eq, round_eq]
  exact Int.floor_le_floor (by linarith)

/-- Helper: `jsRound` is nonnegative on nonnegative inputs. -/
lemma jsRound_nonneg {x : ℚ} (h : 0 ≤ x) : 0 ≤ jsRound x := by
  have h0 : jsRound (0 : ℚ) = 0 := by simp [jsRound]
  rw [← h0]
  exact jsRound_le_jsRound h

/-- Helper: clamping after rounding equals rounding after clamping. -/
lemma max_zero_jsRound_comm (x : ℚ) :
    max 0 ((jsRound x : ℚ)) = ((jsRound (max 0 x) : ℚ)) := by
  rcases le_or_lt 0 x with h | h
  · rw [max_eq_right h, max_eq_right (by exact_mod_cast jsRound_nonneg h)]
  · have h1 : jsRound x ≤ 0 := by
      have h0 : jsRound (0 : ℚ) = 0 := by simp [jsRound]
      rw [← h0]
      exact jsRound_le_jsRound h.le
    rw [max_eq_left h.le, max_eq_left (by exact_mod_cast h1)]
    simp [jsRound]

/-- Helper: lifecycle stage of the acceptance features. -/
lemma accStage : acceptanceFeatures.companyLifecycleStage = "maturity" := rfl

/-- Helper: disaster likelihood of the acceptance features. -/
lemma accDisaster : acceptanceFeatures.naturalDisasterLikelihood = "low" := rfl

/-- Helper: marketing spend of the acceptance features. -/
lemma accMarketing : acceptanceFeatures.marketingSpend = 0 := rfl

/-- Helper: labor cost index of the acceptance features. -/
lemma accLabor : acceptanceFeatures.laborCostIndex = 1 := by
  norm_num [acceptanceFeatures, calculateEnhancedFeatures, acceptanceInput]

/-- Helper: base revenue of the acceptance features (the latest point). -/
lemma accBase : acceptanceFeatures.baseRevenue = 1100000 := by
  norm_num [acceptanceFeatures, calculateEnhancedFeatures, acceptanceInput, neutralDate]

/-- Helper: 6-period growth of the acceptance history is exactly 10 %. -/
lemma accGrowth : acceptanceFeatures.revenueGrowth = 10 := by
  norm_num [acceptanceFeatures, calculateEnhancedFeatures, calculateGrowthRate,
    acceptanceInput, orDefault, toFixedQ, jsRound, round_eq, neutralDate]

/-- Helper: with no confirmed orders the pipeline strength defaults to 50. -/
lemma accPipeline : acceptanceFeatures.orderPipelineStrength = 50 := rfl

/-- Helper: with no buyer-percentage input the buyer risk defaults to 50. -/
lemma accBuyerRisk : acceptanceFeatures.buyerConcentrationRisk = 50 := rfl

/-- Helper: with a 7-point history and no optional fields the data-quality
score stays at the base 50. -/
lemma accDQ : acceptanceFeatures.dataQualityScore = 50 := by
  norm_num [acceptanceFeatures, calculateEnhancedFeatures, assessDataQuality, acceptanceInput]

/-- Helper: operational efficiency of the acceptance input is exactly 76. -/
lemma accEff : acceptanceFeatures.operationalEfficiency = 76 := by
  norm_num [acceptanceFeatures, calculateEnhancedFeatures, calculateOperationalEfficiency,
    utilizationRate, maxPossibleRevenueAtCapacity, averageHistoricalRevenue,
    acceptanceInput, toFixedQ, jsRound, round_eq]

/-- Helper: exchange-rate impact under the fallback rate 325.50 is 0.0172. -/
lemma accExch : acceptanceFeatures.exchangeRateImpact = 43/2500 := by
  have habs : |(11:ℚ)/640| = 11/640 := by norm_num
  norm_num [acceptanceFeatures, calculateEnhancedFeatures, calculateExchangeRateImpact,
    orDefault, getExternalData, getFallbackExternalData, acceptanceInput,
    toFixedQ, jsRound, round_eq, habs]

/-- Helper: the ensemble value of the acceptance features in January. -/
lemma accEnsemble : ensembleValue 1 acceptanceFeatures = 924000 := by
  norm_num [ensembleValue, trendBasedPrediction, pipelineBasedPrediction,
    seasonalAdjustedPrediction, getSeasonalFactor, accBase, accGrowth, accPipeline]

/-- Helper: all adjustment gates are neutral for the acceptance features at
the neutral date, so the raw factor is the trade bonus 1.03 alone. -/
lemma accAdjRaw : adjustmentFactorRaw neutralDate acceptanceFeatures = 103/100 := by
  norm_num [adjustmentFactorRaw, isRamadanPeriod, neutralDate, accStage, accDisaster,
    accMarketing, accLabor, accEff, accExch]
  simp

/-- Helper: the adjusted next-quarter figure for the acceptance input. -/
lemma accNextQuarter : acceptanceAdjusted.nextQuarter = 951720 := by
  have h : acceptanceAdjusted.nextQuarter =
      max 0 ((jsRound (ensembleValue 1 acceptanceFeatures * adjustmentFactorRaw neutralDate acceptanceFeatures) : ℚ)) := rfl
  rw [h, accEnsemble, accAdjRaw]
  norm_num [jsRound, round_eq]

/-- Helper: the adjusted next-month figure for the acceptance input. -/
lemma accNextMonth : acceptanceAdjusted.nextMonth = 314068 := by
  have h : acceptanceAdjusted.nextMonth =
      max 0 ((jsRound (ensembleValue 1 acceptanceFeatures * 0.33 * adjustmentFactorRaw neutralDate acceptanceFeatures) : ℚ)) := by
    show max 0 ((jsRound (ensembleValue 1 acceptanceFeatures * 0.33 * adjustmentFactorRaw neutralDate acceptanceFeatures) : ℚ)) = _
    ring_nf
  rw [h, accEnsemble, accAdjRaw]
  norm_num [jsRound, round_eq]

/-- Helper: the recommendations generated for the acceptance input: the
pipeline gate (50 < 80) and the data-quality gate (50 < 70) fire, so the
default maintenance message is not used. -/
lemma accRecommendations : generateRecommendations acceptanceFeatures acceptanceInput =
    ["Strengthen sales and marketing efforts to build a more robust order pipeline.",
     "Improve data collection for more accurate forecasting; ensure all key metrics are regularly updated."] := by
  norm_num [generateRecommendations, accBuyerRisk, accEff, accPipeline, accExch, accDQ,
    accStage, accDisaster, accGrowth]
  simp

/-- C1: for every fetch outcome, evaluation date and input, the result of
`generateEnhancedPrediction` is exactly `basicPredictionFallback` on that
input — confidence 70, adjustmentFactor 1.0, accuracy "65-75%", a single
fallback key driver and a single High-level fallback risk factor — because
the undefined method `calculateAccuracyScore` makes the `try` block throw
after the pipeline stages complete. -/
theorem generateEnhancedPrediction_always_basicFallback
    (fetch : FetchOutcome) (d : EvalDate) (inputData : EnhancedInputData) :
    generateEnhancedPrediction fetch d inputData = basicPredictionFallback inputData ∧
    (generateEnhancedPrediction fetch d inputData).predictions.confidence = 70 ∧
    (generateEnhancedPrediction fetch d inputData).predictions.adjustmentFactor = 1.0 ∧
    (generateEnhancedPrediction fetch d inputData).accuracy = "65-75%" ∧
    ((generateEnhancedPrediction fetch d inputData).insights.keyDrivers.map (·.factor)) =
      ["Historical Trend (Fallback)"] ∧
    (generateEnhancedPrediction fetch d inputData).insights.riskFactors =
      [{ risk := "Data Limitation / Prediction Fallback", level := "High", score := "N/A" }] := by
  refine ⟨generateEnhancedPrediction_eq_fallback fetch d inputData, rfl, rfl, rfl, rfl, rfl⟩

/-- C2: the ensemble-path confidence (computed by
`calculatePredictionConfidence` and passed through unchanged by
`applyIndustryAdjustments`) always lies in [60,95] and equals the spec's
clamped rounded formula, while the fallback path's confidence is exactly 70. -/
theorem confidence_bounds_and_formula (d : EvalDate) (f : Features)
    (inputData : EnhancedInputData) :
    60 ≤ calculatePredictionConfidence f ∧
    calculatePredictionConfidence f ≤ 95 ∧
    (applyIndustryAdjustments d (runEnsemblePrediction d.month f) f).confidence =
      calculatePredictionConfidence f ∧
    calculatePredictionConfidence f =
      specConfidenceFormula f.dataQualityScore f.revenueVolatility f.overallRiskScore ∧
    (basicPredictionFallback inputData).predictions.confidence = 70 := by
  refine ⟨le_max_left _ _, ?_, rfl, ?_, basicPredictionFallback_confidence inputData⟩
  · exact max_le (by norm_num) (min_le_left _ _)
  · unfold calculatePredictionConfidence specConfidenceFormula
    by_cases h : f.overallRiskScore = 0
    · rw [h]; norm_num
    · rw [if_neg h]

/-- C8: `getExternalData` is total (never throws): a found document is
returned as-is, and both the missing-document case and the fetch-error case
return exactly the fixed fallback constants 325.50 / 410 / 360 / 1.05 /
1.8 / 5.5 / 4.2 / 4.9. -/
theorem getExternalData_total_and_fallback_constants :
    (∀ d : ExternalData, getExternalData (.found d) = d) ∧
    getExternalData .missing = getFallbackExternalData ∧
    getExternalData .fetchError = getFallbackExternalData ∧
    getFallbackExternalData.exchangeRate = 325.50 ∧
    getFallbackExternalData.rawMaterialPrices =
      some { cottonPriceLKR := 410, polyesterPriceLKR := 360, dyeCostIndex := 1.05 } ∧
    getFallbackExternalData.economicIndicators =
      some { gdpGrowthRate := 1.8, inflationRate := 5.5, exportGrowthRate := 4.2,
             unemploymentRate := 4.9 } :=
  ⟨fun _ => rfl, rfl, rfl, rfl, rfl, rfl⟩

/-- C9: the flow raises a descriptive error exactly when the historical-data
string fails JSON parsing / shape validation; for every input that parses,
the engine's internal catch converts any pipeline exception into the basic
fallback result, which passes output validation, so the caller receives a
well-formed result and never a raw exception. -/
theorem predictRevenueFlow_error_routing (fetch : FetchOutcome) (d : EvalDate)
    (fi : FlowInput) :
    (∀ e : String, predictRevenueFlow fetch d (.error e) fi =
      .error ("Prediction failed: " ++
        handleApiError ("Invalid historical revenue data JSON: " ++ e))) ∧
    (∀ items : List HistoricalRevenueDataItem,
      predictRevenueFlow fetch d (.ok items) fi =
        .ok (basicPredictionFallback (toEngineInput fi items))) := by
  constructor
  · intro e; rfl
  · intro items
    have hvalid : validOutputShape (basicPredictionFallback (toEngineInput fi items)) := by
      constructor
      · rw [basicPredictionFallback_confidence]; norm_num
      · rw [basicPredictionFallback_confidence]; norm_num
    have hred : predictRevenueFlow fetch d (.ok items) fi =
        (if validOutputShape (generateEnhancedPrediction fetch d (toEngineInput fi items))
         then Except.ok (generateEnhancedPrediction fetch d (toEngineInput fi items))
         else Except.error "Prediction failed: Prediction engine returned data in an unexpected format.") := rfl
    rw [hred, generateEnhancedPrediction_eq_fallback, if_pos hvalid]

/-- Helper: each adjusted horizon is `max 0` of the rounded product with the
raw adjustment factor (definitional shape of `applyIndustryAdjustments`). -/
lemma adjusted_horizon_shape (d : EvalDate) (p : RawPredictions) (f : Features) :
    (applyIndustryAdjustments d p f).nextMonth =
      max 0 ((jsRound (p.nextMonth * adjustmentFactorRaw d f) : ℚ)) ∧
    (applyIndustryAdjustments d p f).nextQuarter =
      max 0 ((jsRound (p.nextQuarter * adjustmentFactorRaw d f) : ℚ)) ∧
    (applyIndustryAdjustments d p f).nextSixMonths =
      max 0 ((jsRound (p.nextSixMonths * adjustmentFactorRaw d f) : ℚ)) ∧
    (applyIndustryAdjustments d p f).nextYear =
      max 0 ((jsRound (p.nextYear * adjustmentFactorRaw d f) : ℚ)) :=
  ⟨rfl, rfl, rfl, rfl⟩

/-- C6: every adjusted horizon, and every fallback horizon, is a nonnegative
integer, and equals the round of the zero-clamped product of the raw horizon
value with the adjustment factor (round and clamp commute here). -/
theorem horizons_nonneg_integers (d : EvalDate) (p : RawPredictions) (f : Features)
    (inputData : EnhancedInputData) :
    ((∃ n : ℕ, (applyIndustryAdjustments d p f).nextMonth = n) ∧
     (∃ n : ℕ, (applyIndustryAdjustments d p f).nextQuarter = n) ∧
     (∃ n : ℕ, (applyIndustryAdjustments d p f).nextSixMonths = n) ∧
     (∃ n : ℕ, (applyIndustryAdjustments d p f).nextYear = n)) ∧
    ((applyIndustryAdjustments d p f).nextMonth =
      ((jsRound (max 0 (p.nextMonth * adjustmentFactorRaw d f)) : ℚ)) ∧
     (applyIndustryAdjustments d p f).nextQuarter =
      ((jsRound (max 0 (p.nextQuarter * adjustmentFactorRaw d f)) : ℚ)) ∧
     (applyIndustryAdjustments d p f).nextSixMonths =
      ((jsRound (max 0 (p.nextSixMonths * adjustmentFactorRaw d f)) : ℚ)) ∧
     (applyIndustryAdjustments d p f).nextYear =
      ((jsRound (max 0 (p.nextYear * adjustmentFactorRaw d f)) : ℚ))) ∧
    ((∃ n : ℕ, (basicPredictionFallback inputData).predictions.nextMonth = n) ∧
     (∃ n : ℕ, (basicPredictionFallback inputData).predictions.nextQuarter = n) ∧
     (∃ n : ℕ, (basicPredictionFallback inputData).predictions.nextSixMonths = n) ∧
     (∃ n : ℕ, (basicPredictionFallback inputData).predictions.nextYear = n)) := by
  obtain ⟨h1, h2, h3, h4⟩ := adjusted_horizon_shape d p f
  refine ⟨⟨?_, ?_, ?_, ?_⟩, ⟨?_, ?_, ?_, ?_⟩, ?_, ?_, ?_, ?_⟩
  · exact ⟨_, by rw [h1, max_zero_intCast_eq_toNat]⟩
  · exact ⟨_, by rw [h2, max_zero_intCast_eq_toNat]⟩
  · exact ⟨_, by rw [h3, max_zero_intCast_eq_toNat]⟩
  · exact ⟨_, by rw [h4, max_zero_intCast_eq_toNat]⟩
  · rw [h1, max_zero_jsRound_comm]
  · rw [h2, max_zero_jsRound_comm]
  · rw [h3, max_zero_jsRound_comm]
  · rw [h4, max_zero_jsRound_comm]
  · exact ⟨_, (max_zero_intCast_eq_toNat _)⟩
  · exact ⟨_, (max_zero_intCast_eq_toNat _)⟩
  · exact ⟨_, (max_zero_intCast_eq_toNat _)⟩
  · exact ⟨_, (max_zero_intCast_eq_toNat _)⟩

/-- C7 (amended): `calculateBuyerRisk` is the documented step function for
truthy (present, nonzero) values of `top3BuyersPercentage`, and returns the
default 50 both when the field is absent and when it is present with value 0
(the JavaScript falsiness guard `!inputData.top3BuyersPercentage`). -/
theorem calculateBuyerRisk_cases (i : EnhancedInputData) :
    (i.top3BuyersPercentage = none → calculateBuyerRisk i = 50) ∧
    (i.top3BuyersPercentage = some 0 → calculateBuyerRisk i = 50) ∧
    (∀ p : ℚ, i.top3BuyersPercentage = some p → p ≠ 0 → p ≤ 40 →
      calculateBuyerRisk i = 30) ∧
    (∀ p : ℚ, i.top3BuyersPercentage = some p → 40 < p → p ≤ 60 →
      calculateBuyerRisk i = 50) ∧
    (∀ p : ℚ, i.top3BuyersPercentage = some p → 60 < p → p ≤ 80 →
      calculateBuyerRisk i = 70) ∧
    (∀ p : ℚ, i.top3BuyersPercentage = some p → 80 < p →
      calculateBuyerRisk i = 90) := by
  unfold calculateBuyerRisk
  refine ⟨?_, ?_, ?_, ?_, ?_, ?_⟩
  · intro h; rw [h]
  · intro h; rw [h]; norm_num
  · intro p h hne hle; rw [h]
    show (if p = 0 then (50:ℚ) else if p > 80 then 90 else if p > 60 then 70
      else if p > 40 then 50 else 30) = 30
    rw [if_neg hne, if_neg (by linarith : ¬ p > 80),
      if_neg (by linarith : ¬ p > 60), if_neg (by linarith : ¬ p > 40)]
  · intro p h h1 h2; rw [h]
    show (if p = 0 then (50:ℚ) else if p > 80 then 90 else if p > 60 then 70
      else if p > 40 then 50 else 30) = 50
    rw [if_neg (by linarith : ¬ p = 0), if_neg (by linarith : ¬ p > 80),
      if_neg (by linarith : ¬ p > 60), if_pos (by linarith : p > 40)]
  · intro p h h1 h2; rw [h]
    show (if p = 0 then (50:ℚ) else if p > 80 then 90 else if p > 60 then 70
      else if p > 40 then 50 else 30) = 70
    rw [if_neg (by linarith : ¬ p = 0), if_neg (by linarith : ¬ p > 80),
      if_pos (by linarith : p > 60)]
  · intro p h h1; rw [h]
    show (if p = 0 then (50:ℚ) else if p > 80 then 90 else if p > 60 then 70
      else if p > 40 then 50 else 30) = 90
    rw [if_neg (by linarith : ¬ p = 0), if_pos (by linarith : p > 80)]

/-- C7 counterexample: a present `top3BuyersPercentage` of 0 lies in [0,40]
but the code returns 50, not the 30 the claim states. -/
theorem calculateBuyerRisk_zero_counterexample :
    (top3Input (some 0)).top3BuyersPercentage = some 0 ∧
    (0 : ℚ) ≤ 0 ∧ (0 : ℚ) ≤ 40 ∧
    calculateBuyerRisk (top3Input (some 0)) = 50 ∧
    calculateBuyerRisk (top3Input (some 0)) ≠ 30 := by
  refine ⟨rfl, le_refl 0, by norm_num, ?_, ?_⟩
  · norm_num [calculateBuyerRisk, top3Input]
  · norm_num [calculateBuyerRisk, top3Input]

/-- C7 witness: the amended step behaviour at concrete inputs — 30 at a
present 30 %, 50 when absent, 50 at a present 0 %, 90 at a present 85 %. -/
theorem calculateBuyerRisk_cases_witness :
    calculateBuyerRisk (top3Input (some 30)) = 30 ∧
    calculateBuyerRisk (top3Input none) = 50 ∧
    calculateBuyerRisk (top3Input (some 0)) = 50 ∧
    calculateBuyerRisk (top3Input (some 85)) = 90 := by
  refine ⟨?_, ?_, ?_, ?_⟩
  · exact (calculateBuyerRisk_cases (top3Input (some 30))).2.2.1 30 rfl
      (by norm_num) (by norm_num)
  · exact (calculateBuyerRisk_cases (top3Input none)).1 rfl
  · exact (calculateBuyerRisk_cases (top3Input (some 0))).2.1 rfl
  · exact (calculateBuyerRisk_cases (top3Input (some 85))).2.2.2.2.2 85 rfl (by norm_num)

/-- C10: whenever `productionCapacity > 0` and the (code's) average
historical revenue is positive, the capacity-utilization proxy is exactly
100 — the estimated ceiling is half the average revenue, so the ratio is
200 % before the `min` clamp — and with both quality rates absent the
operational efficiency is exactly 76. -/
theorem utilization_always_100 (i : EnhancedInputData)
    (hc : 0 < i.productionCapacity)
    (ha : 0 < averageHistoricalRevenue i)
    (hq : i.firstPassQualityRate = none)
    (ho : i.onTimeDeliveryRate = none) :
    utilizationRate i = 100 ∧ calculateOperationalEfficiency i = 76 := by
  have hmax : maxPossibleRevenueAtCapacity i = averageHistoricalRevenue i * 0.5 := by
    show i.productionCapacity *
        ((averageHistoricalRevenue i / (if i.productionCapacity = 0 then 1 else i.productionCapacity)) * 0.5) =
      averageHistoricalRevenue i * 0.5
    rw [if_neg (by linarith : ¬ i.productionCapacity = 0)]
    field_simp
  have hutil : utilizationRate i = 100 := by
    unfold utilizationRate
    rw [if_pos ⟨hc, ha⟩, hmax]
    have hne : averageHistoricalRevenue i ≠ 0 := ne_of_gt ha
    rw [show averageHistoricalRevenue i / (averageHistoricalRevenue i * 0.5) = 2 by
      field_simp; ring]
    norm_num
  refine ⟨hutil, ?_⟩
  unfold calculateOperationalEfficiency
  rw [hq, ho, hutil]
  norm_num [toFixedQ, jsRound, round_eq]

/-- C10 witness: the acceptance input satisfies the hypotheses and indeed
yields utilization 100 and operational efficiency 76. -/
theorem utilization_always_100_witness :
    0 < acceptanceInput.productionCapacity ∧
    0 < averageHistoricalRevenue acceptanceInput ∧
    acceptanceInput.firstPassQualityRate = none ∧
    acceptanceInput.onTimeDeliveryRate = none ∧
    utilizationRate acceptanceInput = 100 ∧
    calculateOperationalEfficiency acceptanceInput = 76 := by
  have hc : 0 < acceptanceInput.productionCapacity := by norm_num [acceptanceInput]
  have ha : 0 < averageHistoricalRevenue acceptanceInput := by
    norm_num [averageHistoricalRevenue, acceptanceInput]
  exact ⟨hc, ha, rfl, rfl, (utilization_always_100 acceptanceInput hc ha rfl rfl).1,
    (utilization_always_100 acceptanceInput hc ha rfl rfl).2⟩

lemma adjustmentFactorRaw_lower (d : EvalDate) (f : Features) :
    (19/100 : ℚ) ≤ adjustmentFactorRaw d f := by
  unfold adjustmentFactorRaw
  have h1 : (17/20:ℚ) ≤ (if 6 ≤ d.month ∧ d.month ≤ 9 then (0.95:ℚ) else 1) := by
    split_ifs <;> norm_num
  have h2 : (17/20:ℚ) ≤ (if isRamadanPeriod d then (0.92:ℚ) else 1) := by
    split_ifs <;> norm_num
  have h3 : (17/20:ℚ) ≤ (if f.companyLifecycleStage = "startup" then (1.1:ℚ) else 1) := by
    split_ifs <;> norm_num
  have h4 : (17/20:ℚ) ≤ (if f.companyLifecycleStage = "decline" then (0.9:ℚ) else 1) := by
    split_ifs <;> norm_num
  have h5 : (17/20:ℚ) ≤ (if f.naturalDisasterLikelihood = "high" then (0.85:ℚ)
      else if f.naturalDisasterLikelihood = "medium" then 0.95 else 1) := by
    split_ifs <;> norm_num
  have h6 : (17/20:ℚ) ≤ (if f.exchangeRateImpact > 0.1 then (0.97:ℚ) else 1) := by
    split_ifs <;> norm_num
  have h7 : (17/20:ℚ) ≤ (if f.operationalEfficiency > 90 then (1.05:ℚ)
      else if f.operationalEfficiency < 75 then 0.95 else 1) := by
    split_ifs <;> norm_num
  have h8 : (17/20:ℚ) ≤ (if f.marketingSpend > 1000000 then (1.02:ℚ) else 1) := by
    split_ifs <;> norm_num
  have h9 : (17/20:ℚ) ≤ (if f.laborCostIndex > 1.1 then (0.98:ℚ) else 1) := by
    split_ifs <;> norm_num
  calc (19/100 : ℚ) ≤
      (1:ℚ) * (17/20) * (17/20) * (17/20) * (17/20) * (17/20) * (17/20) * (17/20) * 1.03 *
        (17/20) * (17/20) := by norm_num
    _ ≤ _ := by
      gcongr <;> first | assumption | linarith

lemma toFixedQ4_pos {x : ℚ} (h : 19/100 ≤ x) : 0 < toFixedQ 4 x := by
  unfold toFixedQ jsRound
  have h1900 : (1900:ℤ) ≤ round (x * 10 ^ 4) := by
    rw [round_eq]
    exact Int.le_floor.mpr (by push_cast; linarith)
  have hc : (1900:ℚ) ≤ ((round (x * 10 ^ 4) : ℤ) : ℚ) := by exact_mod_cast h1900
  apply div_pos
  · linarith
  · norm_num

/-- C5: the recorded `adjustmentFactor` is always strictly positive, and when
every adjustment-triggering feature is neutral (non-monsoon month, outside the
hard-coded Ramadan windows, growth or maturity stage, low disaster
likelihood, exchange-rate impact at most 0.1, operational efficiency in
[75,90], marketing spend at most the 1,000,000 threshold, labor index at
most 1.1) it is exactly the trade-preference bonus 1.03 alone. -/
theorem adjustmentFactor_positive_and_neutral_1x03 (d : EvalDate)
    (p : RawPredictions) (f : Features) :
    0 < (applyIndustryAdjustments d p f).adjustmentFactor ∧
    (¬ (6 ≤ d.month ∧ d.month ≤ 9) → isRamadanPeriod d = false →
     (f.companyLifecycleStage = "growth" ∨ f.companyLifecycleStage = "maturity") →
     f.naturalDisasterLikelihood = "low" →
     f.exchangeRateImpact ≤ 0.1 →
     75 ≤ f.operationalEfficiency → f.operationalEfficiency ≤ 90 →
     f.marketingSpend ≤ 1000000 → f.laborCostIndex ≤ 1.1 →
     (applyIndustryAdjustments d p f).adjustmentFactor = 1.03) := by
  have hshape : (applyIndustryAdjustments d p f).adjustmentFactor =
      toFixedQ 4 (adjustmentFactorRaw d f) := rfl
  constructor
  · rw [hshape]
    exact toFixedQ4_pos (adjustmentFactorRaw_lower d f)
  · intro hm hr hs hd hx he1 he2 hms hl
    have hstartup : f.companyLifecycleStage ≠ "startup" := by
      rcases hs with h | h <;> rw [h] <;> intro hc <;> exact absurd hc (by decide)
    have hdecline : f.companyLifecycleStage ≠ "decline" := by
      rcases hs with h | h <;> rw [h] <;> intro hc <;> exact absurd hc (by decide)
    have hhigh : f.naturalDisasterLikelihood ≠ "high" := by
      rw [hd]; intro hc; exact absurd hc (by decide)
    have hmedium : f.naturalDisasterLikelihood ≠ "medium" := by
      rw [hd]; intro hc; exact absurd hc (by decide)
    have hraw : adjustmentFactorRaw d f = 103/100 := by
      unfold adjustmentFactorRaw
      rw [if_neg hm, if_neg (by simp [hr]), if_neg hstartup, if_neg hdecline,
        if_neg hhigh, if_neg hmedium, if_neg (by linarith : ¬ f.exchangeRateImpact > 0.1),
        if_neg (by linarith : ¬ f.operationalEfficiency > 90),
        if_neg (by linarith : ¬ f.operationalEfficiency < 75),
        if_neg (by linarith : ¬ f.marketingSpend > 1000000),
        if_neg (by linarith : ¬ f.laborCostIndex > 1.1)]
      norm_num
    rw [hshape, hraw]
    norm_num [toFixedQ, jsRound, round_eq]

/-- C5 witness: at the neutral January 2023 date with the acceptance-input
features, every neutrality hypothesis holds and the recorded adjustment
factor is exactly 1.03. -/
theorem adjustmentFactor_neutral_1x03_witness :
    (¬ (6 ≤ neutralDate.month ∧ neutralDate.month ≤ 9)) ∧
    isRamadanPeriod neutralDate = false ∧
    acceptanceFeatures.companyLifecycleStage = "maturity" ∧
    acceptanceFeatures.naturalDisasterLikelihood = "low" ∧
    acceptanceFeatures.exchangeRateImpact ≤ 0.1 ∧
    75 ≤ acceptanceFeatures.operationalEfficiency ∧
    acceptanceFeatures.operationalEfficiency ≤ 90 ∧
    acceptanceFeatures.marketingSpend ≤ 1000000 ∧
    acceptanceFeatures.laborCostIndex ≤ 1.1 ∧
    (applyIndustryAdjustments neutralDate sampleRawPredictions acceptanceFeatures).adjustmentFactor = 1.03 := by
  have hm : ¬ (6 ≤ neutralDate.month ∧ neutralDate.month ≤ 9) := by
    norm_num [neutralDate]
  have hr : isRamadanPeriod neutralDate = false := rfl
  have hx : acceptanceFeatures.exchangeRateImpact ≤ 0.1 := by rw [accExch]; norm_num
  have he1 : (75:ℚ) ≤ acceptanceFeatures.operationalEfficiency := by rw [accEff]; norm_num
  have he2 : acceptanceFeatures.operationalEfficiency ≤ 90 := by rw [accEff]; norm_num
  have hms : acceptanceFeatures.marketingSpend ≤ 1000000 := by rw [accMarketing]; norm_num
  have hl : acceptanceFeatures.laborCostIndex ≤ 1.1 := by rw [accLabor]; norm_num
  exact ⟨hm, hr, accStage, accDisaster, hx, he1, he2, hms, hl,
    (adjustmentFactor_positive_and_neutral_1x03 neutralDate sampleRawPredictions
      acceptanceFeatures).2 hm hr (Or.inr accStage) accDisaster hx he1 he2 hms hl⟩

lemma jsRound_double_close (x : ℚ) :
    |((jsRound (2 * x) : ℚ)) - 2 * ((jsRound x : ℚ))| ≤ 1 := by
  have h1 : |2 * x - ((jsRound (2 * x) : ℚ))| ≤ 1/2 := by
    simpa [jsRound] using abs_sub_round (2 * x)
  have h2 : |x - ((jsRound x : ℚ))| ≤ 1/2 := by
    simpa [jsRound] using abs_sub_round x
  have h3 : |((jsRound (2 * x) : ℚ)) - 2 * ((jsRound x : ℚ))| ≤ 3/2 := by
    calc |((jsRound (2 * x) : ℚ)) - 2 * ((jsRound x : ℚ))|
        = |(((jsRound (2 * x) : ℚ)) - 2 * x) + 2 * (x - ((jsRound x : ℚ)))| := by ring_nf
      _ ≤ |((jsRound (2 * x) : ℚ)) - 2 * x| + |2 * (x - ((jsRound x : ℚ)))| := abs_add _ _
      _ = |2 * x - ((jsRound (2 * x) : ℚ))| + 2 * |x - ((jsRound x : ℚ))| := by
          rw [abs_sub_comm, abs_mul]; norm_num
      _ ≤ 1/2 + 2 * (1/2) := by linarith
      _ = 3/2 := by norm_num
  set D : ℤ := jsRound (2 * x) - 2 * jsRound x with hD
  have hcast : ((D : ℚ)) = ((jsRound (2 * x) : ℚ)) - 2 * ((jsRound x : ℚ)) := by
    rw [hD]; push_cast; ring
  have h4 : |(D : ℚ)| ≤ 3/2 := by rw [hcast]; exact h3
  have h5 : |D| ≤ 1 := by
    have hq : ((|D| : ℤ) : ℚ) ≤ 3/2 := by rw [Int.cast_abs]; exact h4
    have hq2 : ((|D| : ℤ) : ℚ) < ((2 : ℤ) : ℚ) := lt_of_le_of_lt hq (by norm_num)
    have h6 : |D| < 2 := by exact_mod_cast hq2
    omega
  calc |((jsRound (2 * x) : ℚ)) - 2 * ((jsRound x : ℚ))| = |(D : ℚ)| := by rw [hcast]
    _ = ((|D| : ℤ) : ℚ) := by rw [Int.cast_abs]
    _ ≤ 1 := by exact_mod_cast h5

lemma jsRound_quadruple_close (x : ℚ) :
    |((jsRound (4 * x) : ℚ)) - 4 * ((jsRound x : ℚ))| ≤ 2 := by
  have h1 : |4 * x - ((jsRound (4 * x) : ℚ))| ≤ 1/2 := by
    simpa [jsRound] using abs_sub_round (4 * x)
  have h2 : |x - ((jsRound x : ℚ))| ≤ 1/2 := by
    simpa [jsRound] using abs_sub_round x
  have h3 : |((jsRound (4 * x) : ℚ)) - 4 * ((jsRound x : ℚ))| ≤ 5/2 := by
    calc |((jsRound (4 * x) : ℚ)) - 4 * ((jsRound x : ℚ))|
        = |(((jsRound (4 * x) : ℚ)) - 4 * x) + 4 * (x - ((jsRound x : ℚ)))| := by ring_nf
      _ ≤ |((jsRound (4 * x) : ℚ)) - 4 * x| + |4 * (x - ((jsRound x : ℚ)))| := abs_add _ _
      _ = |4 * x - ((jsRound (4 * x) : ℚ))| + 4 * |x - ((jsRound x : ℚ))| := by
          rw [abs_sub_comm, abs_mul]; norm_num
      _ ≤ 1/2 + 4 * (1/2) := by linarith
      _ = 5/2 := by norm_num
  set D : ℤ := jsRound (4 * x) - 4 * jsRound x with hD
  have hcast : ((D : ℚ)) = ((jsRound (4 * x) : ℚ)) - 4 * ((jsRound x : ℚ)) := by
    rw [hD]; push_cast; ring
  have h4 : |(D : ℚ)| ≤ 5/2 := by rw [hcast]; exact h3
  have h5 : |D| ≤ 2 := by
    have hq : ((|D| : ℤ) : ℚ) ≤ 5/2 := by rw [Int.cast_abs]; exact h4
    have hq2 : ((|D| : ℤ) : ℚ) < ((3 : ℤ) : ℚ) := lt_of_le_of_lt hq (by norm_num)
    have h6 : |D| < 3 := by exact_mod_cast hq2
    omega
  calc |((jsRound (4 * x) : ℚ)) - 4 * ((jsRound x : ℚ))| = |(D : ℚ)| := by rw [hcast]
    _ = ((|D| : ℤ) : ℚ) := by rw [Int.cast_abs]
    _ ≤ 2 := by exact_mod_cast h5

/-- C3 (amended): for a nonnegative ensemble value, `nextSixMonths` and
`nextYear` do approximate 2× and 4× `nextQuarter` within rounding tolerance
(at most 1 and 2 respectively), but `nextMonth` is the 0.33 — not 1/3 —
multiple of the quarterly value, so `nextMonth*3` tracks 0.99× the quarter
and the first link of the claimed ≈-chain fails beyond rounding tolerance. -/
theorem horizon_multiples_amended (d : EvalDate) (f : Features)
    (hE : 0 ≤ ensembleValue d.month f) :
    |(applyIndustryAdjustments d (runEnsemblePrediction d.month f) f).nextSixMonths -
      2 * (applyIndustryAdjustments d (runEnsemblePrediction d.month f) f).nextQuarter| ≤ 1 ∧
    |(applyIndustryAdjustments d (runEnsemblePrediction d.month f) f).nextYear -
      4 * (applyIndustryAdjustments d (runEnsemblePrediction d.month f) f).nextQuarter| ≤ 2 ∧
    (applyIndustryAdjustments d (runEnsemblePrediction d.month f) f).nextMonth =
      ((jsRound (ensembleValue d.month f * 0.33 * adjustmentFactorRaw d f) : ℚ)) := by
  have ha : (19/100 : ℚ) ≤ adjustmentFactorRaw d f := adjustmentFactorRaw_lower d f
  have hx : 0 ≤ ensembleValue d.month f * adjustmentFactorRaw d f :=
    mul_nonneg hE (by linarith)
  have hq : (applyIndustryAdjustments d (runEnsemblePrediction d.month f) f).nextQuarter =
      ((jsRound (ensembleValue d.month f * adjustmentFactorRaw d f) : ℚ)) := by
    show max 0 ((jsRound (ensembleValue d.month f * adjustmentFactorRaw d f) : ℚ)) = _
    exact max_eq_right (by exact_mod_cast jsRound_nonneg hx)
  have hs6 : (applyIndustryAdjustments d (runEnsemblePrediction d.month f) f).nextSixMonths =
      ((jsRound (2 * (ensembleValue d.month f * adjustmentFactorRaw d f)) : ℚ)) := by
    show max 0 ((jsRound (ensembleValue d.month f * 2 * adjustmentFactorRaw d f) : ℚ)) = _
    rw [show ensembleValue d.month f * 2 * adjustmentFactorRaw d f =
      2 * (ensembleValue d.month f * adjustmentFactorRaw d f) by ring]
    exact max_eq_right (by exact_mod_cast jsRound_nonneg (by linarith))
  have hs12 : (applyIndustryAdjustments d (runEnsemblePrediction d.month f) f).nextYear =
      ((jsRound (4 * (ensembleValue d.month f * adjustmentFactorRaw d f)) : ℚ)) := by
    show max 0 ((jsRound (ensembleValue d.month f * 4 * adjustmentFactorRaw d f) : ℚ)) = _
    rw [show ensembleValue d.month f * 4 * adjustmentFactorRaw d f =
      4 * (ensembleValue d.month f * adjustmentFactorRaw d f) by ring]
    exact max_eq_right (by exact_mod_cast jsRound_nonneg (by linarith))
  have hm : (applyIndustryAdjustments d (runEnsemblePrediction d.month f) f).nextMonth =
      ((jsRound (ensembleValue d.month f * 0.33 * adjustmentFactorRaw d f) : ℚ)) := by
    show max 0 ((jsRound (ensembleValue d.month f * 0.33 * adjustmentFactorRaw d f) : ℚ)) = _
    have h033 : 0 ≤ ensembleValue d.month f * 0.33 * adjustmentFactorRaw d f := by
      apply mul_nonneg (mul_nonneg hE (by norm_num)) (by linarith)
    exact max_eq_right (by exact_mod_cast jsRound_nonneg h033)
  refine ⟨?_, ?_, hm⟩
  · rw [hq, hs6]
    exact jsRound_double_close _
  · rw [hq, hs12]
    exact jsRound_quadruple_close _

/-- C3 counterexample: at the concrete acceptance input (7 points, no
optional fields) evaluated in January 2023, `nextQuarter` is 951,720 while
`3 * nextMonth` is 942,204 — a gap of 9,516, far beyond the ≤ 2 units three
roundings can produce, so `nextQuarter ≈ nextMonth*3` fails as stated. -/
theorem horizon_month_multiple_counterexample :
    acceptanceAdjusted.nextQuarter = 951720 ∧
    acceptanceAdjusted.nextMonth = 314068 ∧
    acceptanceAdjusted.nextQuarter - 3 * acceptanceAdjusted.nextMonth = 9516 ∧
    ¬ |acceptanceAdjusted.nextQuarter - 3 * acceptanceAdjusted.nextMonth| ≤ 2 := by
  refine ⟨accNextQuarter, accNextMonth, ?_, ?_⟩
  · rw [accNextQuarter, accNextMonth]; norm_num
  · rw [accNextQuarter, accNextMonth]; norm_num

/-- C3 witness: the amended relations hold at the concrete acceptance input
(ensemble value 924,000 ≥ 0). -/
theorem horizon_multiples_amended_witness :
    0 ≤ ensembleValue neutralDate.month acceptanceFeatures ∧
    |(applyIndustryAdjustments neutralDate
        (runEnsemblePrediction neutralDate.month acceptanceFeatures) acceptanceFeatures).nextSixMonths -
      2 * (applyIndustryAdjustments neutralDate
        (runEnsemblePrediction neutralDate.month acceptanceFeatures) acceptanceFeatures).nextQuarter| ≤ 1 ∧
    |(applyIndustryAdjustments neutralDate
        (runEnsemblePrediction neutralDate.month acceptanceFeatures) acceptanceFeatures).nextYear -
      4 * (applyIndustryAdjustments neutralDate
        (runEnsemblePrediction neutralDate.month acceptanceFeatures) acceptanceFeatures).nextQuarter| ≤ 2 := by
  have hE : 0 ≤ ensembleValue neutralDate.month acceptanceFeatures := by
    show 0 ≤ ensembleValue 1 acceptanceFeatures
    rw [accEnsemble]; norm_num
  exact ⟨hE, (horizon_multiples_amended neutralDate acceptanceFeatures hE).1,
    (horizon_multiples_amended neutralDate acceptanceFeatures hE).2.1⟩

/-- C4 counterexample: for the spec's concrete acceptance input the default
maintenance message is absent from the generated recommendations (both from
`generateRecommendations` on the derived features and from the engine's
actual returned output), because the pipeline-strength (50 < 80) and
data-quality (50 < 70) gates fire. -/
theorem acceptance_maintenance_message_missing :
    maintenanceRecommendation ∉ generateRecommendations acceptanceFeatures acceptanceInput ∧
    maintenanceRecommendation ∉
      (generateEnhancedPrediction .missing neutralDate acceptanceInput).recommendations := by
  constructor
  · rw [accRecommendations]
    simp [maintenanceRecommendation]
  · rw [generateEnhancedPrediction_eq_fallback]
    show maintenanceRecommendation ∉
      ["Enhanced prediction engine encountered an issue. Providing basic trend-based forecast. Review inputs or system logs."]
    simp [maintenanceRecommendation]

/-- C4 (amended): the acceptance input yields revenueGrowth exactly 10 and
baseRevenue 1,100,000, and a non-empty recommendations list — but one made of
the pipeline-strengthening and data-quality messages rather than the default
maintenance message (and the engine's actual output carries the fallback
notice, since the enhanced path always degrades to the fallback). -/
theorem acceptance_input_values_and_recommendations :
    acceptanceFeatures.revenueGrowth = 10 ∧
    acceptanceFeatures.baseRevenue = 1100000 ∧
    generateRecommendations acceptanceFeatures acceptanceInput =
      ["Strengthen sales and marketing efforts to build a more robust order pipeline.",
       "Improve data collection for more accurate forecasting; ensure all key metrics are regularly updated."] ∧
    generateRecommendations acceptanceFeatures acceptanceInput ≠ [] ∧
    (generateEnhancedPrediction .missing neutralDate acceptanceInput).recommendations =
      ["Enhanced prediction engine encountered an issue. Providing basic trend-based forecast. Review inputs or system logs."] := by
  refine ⟨accGrowth, accBase, accRecommendations, ?_, rfl⟩
  rw [accRecommendations]
  simp
